import Mathlib

/-!
Shallow embedding of the `futex` library (wait/wake core, mutex, condition
variable, semaphore, ring buffer) and verification of its specification.

Machine integers are modelled as `Nat` with explicit bounds:
`u32` values range over `0 .. U32_MAX`, `usize` values over `0 .. USIZE_MAX`.
Atomic state is modelled by explicit state passing; the environment of a
blocking wait (the sequence of outcomes the OS primitive produces, together
with the futex word's value observed after each return) is passed as a list
of events.  A Rust `panic!` / failed `assert!` / `expect` is modelled as
`Option.none`.
-/

set_option autoImplicit false

/-- Maximum value of a Rust `u32`. -/
def U32_MAX : Nat := 2 ^ 32 - 1

/-- Maximum value of a Rust `usize` (64-bit target). -/
def USIZE_MAX : Nat := 2 ^ 64 - 1

/-- Maximum value of a Rust `i32`, as used by `U31::new` via
`u32::try_from(i32::MAX)` (src/lib.rs line 117). -/
def I32_MAX : Nat := 2 ^ 31 - 1

/-- The `std::io::ErrorKind` values the library distinguishes: `Interrupted`
and `WouldBlock` are inspected by name, every other kind is handled
uniformly (src/lib.rs, src/mutex.rs, src/cond_var.rs, src/semaphore.rs). -/
inductive ErrKind where
  | interrupted
  | wouldBlock
  | other
deriving DecidableEq, Repr

/-- One outcome of a call to the OS-level `futex_wait` primitive
(src/lib.rs lines 20-49), as observed by `genuine_futex_wait`:
either the wait returned `Ok(())` — in which case `word` records the value
the wrapper then loads from the futex word (src/lib.rs line 62) — or it
returned an error of the given kind. -/
inductive WaitEv where
  | ok (word : Nat)
  | err (k : ErrKind)
deriving DecidableEq, Repr

/-- Embedding of `genuine_futex_wait` (src/lib.rs lines 59-73), the retrying
wrapper around `futex_wait`.  The list drives the successive outcomes of the
inner `futex_wait` calls.  Transliterating the source loop:

  - on `Ok(())` from `futex_wait`, the wrapper loads the word; if it equals
    `cx.expected` it returns `Ok(())` (src/lib.rs lines 62-64), otherwise it
    executes `continue` (src/lib.rs lines 65-66);
  - on `Err(e)` with `e.kind() == Interrupted` it continues
    (src/lib.rs lines 68-70), otherwise it returns `Err(e)`
    (src/lib.rs line 71).

`Option.none` means the trace ended with the loop still running. -/
def genuine_futex_wait (expected : Nat) : List WaitEv → Option (Except ErrKind Unit)
  | [] => Option.none
  | WaitEv.ok w :: rest =>
      if w = expected then Option.some (Except.ok ())
      else genuine_futex_wait expected rest
  | WaitEv.err k :: rest =>
      if k = ErrKind.interrupted then genuine_futex_wait expected rest
      else Option.some (Except.error k)

/-- The name under which every caller in this repository (src/mutex.rs,
src/cond_var.rs, src/semaphore.rs) imports the retrying wait wrapper defined
as `genuine_futex_wait` in src/lib.rs. -/
def resumed_futex_wait (expected : Nat) (tr : List WaitEv) :
    Option (Except ErrKind Unit) :=
  genuine_futex_wait expected tr

/-- Embedding of `mutex::State` (src/mutex.rs lines 10-14):
`Unlocked = 0`, `Locked = 1`. -/
inductive MutexState where
  | unlocked
  | locked
deriving DecidableEq, Repr

/-- `impl From<State> for u32` (src/mutex.rs lines 15-19). -/
def MutexState.toNat : MutexState → Nat
  | MutexState.unlocked => 0
  | MutexState.locked => 1

/-- `impl TryFrom<u32> for State` (src/mutex.rs lines 20-31): `1` decodes to
`Locked`, `0` to `Unlocked`, anything else is an error. -/
def mutexStateTryFrom (v : Nat) : Option MutexState :=
  if v = MutexState.locked.toNat then Option.some MutexState.locked
  else if v = MutexState.unlocked.toNat then Option.some MutexState.unlocked
  else Option.none

/-- Embedding of the private helper `locked` (src/mutex.rs lines 111-120):
decodes the futex word, panicking (`Option.none`) on an unknown state via
`.expect("unknown state")`, and reports whether the state is `Locked`. -/
def locked (futex : Nat) : Option Bool :=
  match mutexStateTryFrom futex with
  | Option.none => Option.none
  | Option.some MutexState.unlocked => Option.some false
  | Option.some MutexState.locked => Option.some true

/-- The waiter-counter check shared by `unlock` (src/mutex.rs lines 100-104)
and `Semaphore::signal` (src/semaphore.rs lines 80-84): a wake is attempted
unless a waiter counter is tracked and currently reads zero. -/
def shouldWake : Option Nat → Bool
  | Option.none => true
  | Option.some n => if n = 0 then false else true

/-- Embedding of the free function `unlock` (src/mutex.rs lines 95-106) on a
futex word holding `futex`, with `waiters` an optionally tracked waiter
counter.  Returns `Option.none` when the source panics (invalid state
observed by `locked`); otherwise `(w, k)` where `w` is the futex word's
value on return and `k` records whether a `futex_wake` of one waiter was
attempted.  The source only ever loads the waiter counter, never stores to
it, so the counter itself is unchanged and not returned.  Transliterating:
if `!locked(futex)` return immediately (lines 96-98); otherwise store
`Unlocked` (line 99), skip the wake when a tracked counter reads zero
(lines 100-104), else wake one waiter (line 105). -/
def unlock (futex : Nat) (waiters : Option Nat) : Option (Nat × Bool) :=
  match locked futex with
  | Option.none => Option.none
  | Option.some false => Option.some (futex, false)
  | Option.some true =>
      if shouldWake waiters then Option.some (MutexState.unlocked.toNat, true)
      else Option.some (MutexState.unlocked.toNat, false)

/-- Possible outcomes of the free function `lock` (src/mutex.rs lines
42-85). -/
inductive LockOutcome where
  | acquired
  | refused
  | panicState
  | panicWait
  | running
deriving DecidableEq, Repr

/-- Embedding of the free function `lock` (src/mutex.rs lines 42-85).  Each
outer-loop iteration is driven by one trace element `(w, r)`: `w` is the
futex word's value during the iteration and `r` the outcome of the
`resumed_futex_wait` call should the iteration block.  Transliterating one
iteration: first `let _ = locked(futex)` asserts the state is valid,
panicking otherwise (line 46); the bounded spin of compare-exchange
`Unlocked → Locked` attempts succeeds exactly when the word is `Unlocked`
(lines 48-61); otherwise, when nonblocking, return `false` (lines 80-82);
when blocking, increment the tracked waiter counter (lines 64-66), wait —
panicking on any error other than `WouldBlock` (lines 67-75) — decrement
the counter (lines 76-78) and loop.  Returns the outcome together with the
waiter counter's final value (left incremented when the wait panics, since
the `fetch_sub` is skipped by the unwind). -/
def lockRun (blocking : Bool) (waiters : Option Nat) :
    List (Nat × Except ErrKind Unit) → LockOutcome × Option Nat
  | [] => (LockOutcome.running, waiters)
  | (w, r) :: rest =>
      match locked w with
      | Option.none => (LockOutcome.panicState, waiters)
      | Option.some isLocked =>
          if isLocked = false then (LockOutcome.acquired, waiters)
          else if blocking then
            match r with
            | Except.ok _ => lockRun blocking waiters rest
            | Except.error ErrKind.wouldBlock => lockRun blocking waiters rest
            | Except.error _ =>
                (LockOutcome.panicWait, waiters.map (fun n => n + 1))
          else (LockOutcome.refused, waiters)

/-- Possible outcomes of `CondVar::wait` (src/cond_var.rs lines 18-34). -/
inductive CVWaitRes where
  | returns (waitersAfter : Nat)
  | neverReturns
  | panics
deriving DecidableEq, Repr

/-- Embedding of `CondVar::wait` (src/cond_var.rs lines 18-34) on a condvar
whose generation counter reads `counter` and whose waiter counter reads
`waiters`; `tr` drives the blocking wait.  Transliterating:
`waiters.fetch_add(1)` (line 19); snapshot `c = counter` (line 20); unlock
the caller's mutex (line 21); `resumed_futex_wait` expecting `c`
(lines 23-27), panicking on any error other than `WouldBlock`
(lines 28-30); re-lock the mutex and return the guard (line 33).  The
source contains no `fetch_sub` on `waiters`, so the waiter counter on
return is the incremented value. -/
def condVarWait (counter waiters : Nat) (tr : List WaitEv) : CVWaitRes :=
  let waiters1 := waiters + 1
  let c := counter
  match resumed_futex_wait c tr with
  | Option.none => CVWaitRes.neverReturns
  | Option.some (Except.ok _) => CVWaitRes.returns waiters1
  | Option.some (Except.error ErrKind.wouldBlock) => CVWaitRes.returns waiters1
  | Option.some (Except.error _) => CVWaitRes.panics

/-- Rust `u32::checked_add` restricted to the use in `Semaphore::signal`
(src/semaphore.rs line 70). -/
def u32CheckedAdd (a b : Nat) : Option Nat :=
  if a + b ≤ U32_MAX then Option.some (a + b) else Option.none

/-- Embedding of `Semaphore::signal` (src/semaphore.rs lines 63-86) on a
semaphore whose value reads `value` and whose optional waiter counter reads
`waiters`, executed without concurrent interference (the compare-exchange
from the loaded value succeeds on the first attempt).  Transliterating:
compare-exchange `value → value.checked_add(1).expect(...)`, panicking
(`Option.none`) on overflow (lines 64-79); then skip the wake when a
tracked waiter counter reads zero (lines 80-84), else wake one waiter
(line 85).  Returns the new value and whether a wake was attempted. -/
def Semaphore.signal (value : Nat) (waiters : Option Nat) : Option (Nat × Bool) :=
  match u32CheckedAdd value 1 with
  | Option.none => Option.none
  | Option.some v1 =>
      if shouldWake waiters then Option.some (v1, true)
      else Option.some (v1, false)

/-- Labels for the two kinds of successful atomic update of a semaphore's
value (src/semaphore.rs). -/
inductive SemLabel where
  | dec
  | inc
deriving DecidableEq, Repr

/-- One successful atomic update of a semaphore's value under any
interleaving of `Semaphore::wait` and `Semaphore::signal` calls:

  - `dec`: the compare-exchange `value → value - 1` in `Semaphore::wait`
    (src/semaphore.rs lines 33-41), attempted only under the guard
    `0 < value` (line 34) and succeeding only when the value still equals
    the loaded `value`;
  - `inc`: the compare-exchange `value → value.checked_add(1).expect(...)`
    in `Semaphore::signal` (src/semaphore.rs lines 64-79), which panics
    rather than stepping when the increment would exceed `U32_MAX`.

All other actions of `wait` and `signal` (waiter bookkeeping, blocking,
waking) leave the value untouched, so every interleaving of the two calls
induces a sequence of these steps on the value. -/
inductive SemStep : SemLabel → Nat → Nat → Prop
  | dec (v : Nat) (h : 0 < v) : SemStep SemLabel.dec v (v - 1)
  | inc (v : Nat) (h : v + 1 ≤ U32_MAX) : SemStep SemLabel.inc v (v + 1)

/-- Reachability of a semaphore value from an initial value through any
finite interleaving of successful `wait` decrements and `signal`
increments. -/
inductive SemReach : Nat → Nat → Prop
  | refl (v : Nat) : SemReach v v
  | step (a b c : Nat) (l : SemLabel) (hab : SemReach a b)
      (hbc : SemStep l b c) : SemReach a c

/-- Embedding of `U31` (src/lib.rs lines 113-126), the bounded wake count
carried by `WakeWaiters::Amount`. -/
structure U31 where
  val : Nat
deriving DecidableEq, Repr

/-- `U31::new` (src/lib.rs lines 116-121): rejects values above
`i32::MAX`. -/
def U31.new (v : Nat) : Option U31 :=
  if I32_MAX < v then Option.none else Option.some { val := v }

/-- `U31::get` (src/lib.rs lines 123-125). -/
def U31.get (u : U31) : Nat := u.val

/-- Embedding of `CellValue<T>` (src/ring_buffer.rs lines 209-214). -/
inductive CellValue (α : Type) where
  | vacant
  | some (v : α)
  | cancelled
deriving DecidableEq, Repr

/-- `CellValue::take` (src/ring_buffer.rs lines 216-228): on `Some(v)` the
cell is replaced by `Vacant` and `v` is returned; on `Vacant` and
`Cancelled` the cell is unchanged and `None` is returned. -/
def CellValue.take {α : Type} : CellValue α → Option α × CellValue α
  | CellValue.vacant => (Option.none, CellValue.vacant)
  | CellValue.some v => (Option.some v, CellValue.vacant)
  | CellValue.cancelled => (Option.none, CellValue.cancelled)

/-- Embedding of `RingBuffer<T, N>` (src/ring_buffer.rs lines 11-30): the
cell array together with the two indices.  `buf.length` plays the role of
`N`. -/
structure RingBuffer (α : Type) where
  buf : List (CellValue α)
  read_ptr : Nat
  write_ptr : Nat
deriving Repr

/-- `RingBuffer::new` (src/ring_buffer.rs lines 35-50): asserts `3 <= N`
(line 36) and `N != usize::MAX` (line 37) — a failed assertion is a panic,
modelled as `Option.none` — then builds `N` cells each `Cell::new()`, i.e.
holding `CellValue::Vacant` (lines 38-44 and 163-168), with both indices
`0` (lines 47-48). -/
def RingBuffer.new (α : Type) (N : Nat) : Option (RingBuffer α) :=
  if 3 ≤ N then
    if N ≠ USIZE_MAX then
      Option.some { buf := List.replicate N (CellValue.vacant), read_ptr := 0,
                    write_ptr := 0 }
    else Option.none
  else Option.none

/-- Outcome of one pass of the retry loop in `RingBuffer::read`
(src/ring_buffer.rs lines 110-137). -/
inductive ReadStep (α : Type) where
  | done (v : α) (rb : RingBuffer α)
  | retry (rb : RingBuffer α)
  | blocked
  | panicked
deriving Repr

/-- Embedding of one pass of the loop in `RingBuffer::read`
(src/ring_buffer.rs lines 110-137), executed by the single reader without
concurrent interference (so the `confirmed` re-check of `read_ptr` at
line 114 holds and the final compare-exchange at lines 123-134 succeeds).
Transliterating: load `read_ptr` (line 112); index the cell (line 113 —
out of bounds would panic); `Cell::read` (lines 180-201) blocks on the
cell's condvar while the cell is `Vacant`, returns `None` — making the
outer loop `continue` — when it is `Cancelled`, and hands back the guard
when it is `Some`; then `continue` if `read_ptr == write_ptr` (lines
118-121); otherwise `take().unwrap()` the value (line 122, panicking were
`take` to yield `None`), advance `read_ptr` to `(read_ptr + 1) % N`
(lines 123-134) and return the value (line 135). -/
def RingBuffer.readOnce {α : Type} (rb : RingBuffer α) : ReadStep α :=
  match rb.buf.get? rb.read_ptr with
  | Option.none => ReadStep.panicked
  | Option.some cell =>
      match cell with
      | CellValue.vacant => ReadStep.blocked
      | CellValue.cancelled => ReadStep.retry rb
      | CellValue.some v =>
          if rb.read_ptr = rb.write_ptr then ReadStep.retry rb
          else
            match CellValue.take (CellValue.some v) with
            | (Option.some x, cleared) =>
                ReadStep.done x
                  { rb with buf := rb.buf.set rb.read_ptr cleared,
                            read_ptr := (rb.read_ptr + 1) % rb.buf.length }
            | (Option.none, _) => ReadStep.panicked


/-! ### Helper lemmas -/

theorem locked_zero : locked 0 = Option.some false := rfl

theorem locked_one : locked 1 = Option.some true := rfl

theorem locked_invalid (w : Nat) (h0 : w ≠ 0) (h1 : w ≠ 1) :
    locked w = Option.none := by
  unfold locked mutexStateTryFrom
  simp [MutexState.toNat, h0, h1]

theorem locked_false_iff (w : Nat) : locked w = Option.some false ↔ w = 0 := by
  constructor
  · intro h
    by_contra h0
    by_cases h1 : w = 1
    · subst h1
      rw [locked_one] at h
      simp at h
    · rw [locked_invalid w h0 h1] at h
      exact Option.noConfusion h
  · intro h
    subst h
    rfl

theorem shouldWake_iff (ws : Option Nat) :
    shouldWake ws = true ↔
      (ws = Option.none ∨ ∃ n : Nat, ws = Option.some n ∧ n ≠ 0) := by
  cases ws with
  | none => simp [shouldWake]
  | some n =>
      by_cases h : n = 0
      · subst h
        simp [shouldWake]
      · simp [shouldWake, h]

theorem unlock_one (ws : Option Nat) :
    unlock 1 ws = Option.some (0, shouldWake ws) := by
  unfold unlock
  rw [locked_one]
  cases h : shouldWake ws <;> simp [h, MutexState.toNat]

theorem lockRun_valid_no_panic (b : Bool) (ws : Option Nat)
    (tr : List (Nat × Except ErrKind Unit))
    (h : ∀ p ∈ tr, p.1 = 0 ∨ p.1 = 1) :
    (lockRun b ws tr).1 ≠ LockOutcome.panicState := by
  induction tr with
  | nil => simp [lockRun]
  | cons hd rest ih =>
      obtain ⟨w, r⟩ := hd
      have hw : w = 0 ∨ w = 1 := h (w, r) (by simp)
      have hrest : ∀ p ∈ rest, p.1 = 0 ∨ p.1 = 1 := fun p hp => h p (by simp [hp])
      rcases hw with h0 | h1
      · subst h0
        simp [lockRun, locked_zero]
      · subst h1
        cases b with
        | false => simp [lockRun, locked_one]
        | true =>
            cases r with
            | ok u => simpa [lockRun, locked_one] using ih hrest
            | error k =>
                cases k with
                | interrupted => simp [lockRun, locked_one]
                | wouldBlock => simpa [lockRun, locked_one] using ih hrest
                | other => simp [lockRun, locked_one]

/-! ### Claims -/

/-- C1: the spec states that the retrying wait wrapper returns success only
once the futex word's value differs from the expected value, looping past
spurious wake-ups.  The code does the opposite: after the inner wait
returns, `genuine_futex_wait` returns `Ok(())` exactly when the reloaded
word still EQUALS the expected value (a spurious wake-up), and keeps
looping — ultimately surfacing a `WouldBlock` error — when the value has
genuinely changed.  This theorem evaluates the embedding at the two failing
inputs: with `expected = 0`, a wake with the word still `0` yields success,
while a wake after the word changed to `1` yields a `WouldBlock` error. -/
theorem c1_genuine_wait_bug :
    genuine_futex_wait 0 [WaitEv.ok 0] = Option.some (Except.ok ()) ∧
    genuine_futex_wait 0 [WaitEv.ok 1, WaitEv.err ErrKind.wouldBlock] =
      Option.some (Except.error ErrKind.wouldBlock) :=
  ⟨rfl, rfl⟩

/-- C2: the spec states that `CondVar::wait` decrements the waiter counter
after its retrying wait, so that the counter returns to its pre-call value.
The code contains no such decrement (`fetch_sub` is absent from
src/cond_var.rs lines 18-34), so a single completed `wait` on a condvar
with waiter counter `0` returns with the counter at `1`, not `0`.  This
theorem evaluates the embedding at that failing input. -/
theorem c2_condvar_wait_counter_bug :
    condVarWait 0 0 [WaitEv.ok 0] = CVWaitRes.returns 1 ∧ (1 : Nat) ≠ 0 :=
  ⟨rfl, one_ne_zero⟩

/-- C3 counterexample: the claim asserts that for every futex word holding
a valid state, `unlock` attempts a wake whenever waiter tracking is
disabled.  It is false at the valid word `Unlocked = 0` with
`waiters = None`: `unlock` returns immediately without waking. -/
theorem c3_counterexample :
    ¬ (∀ w : Nat, (w = 0 ∨ w = 1) → ∀ ws : Option Nat,
        ∃ k : Bool, unlock w ws = Option.some (0, k) ∧
          (k = true ↔
            (ws = Option.none ∨ ∃ n : Nat, ws = Option.some n ∧ n ≠ 0))) := by
  intro h
  obtain ⟨k, hk, hiff⟩ := h 0 (Or.inl rfl) Option.none
  have hkt : k = true := hiff.mpr (Or.inl rfl)
  subst hkt
  have : unlock 0 Option.none = Option.some (0, false) := rfl
  rw [this] at hk
  simp at hk

/-- C3 amended: for every call to `unlock` on a futex word holding
`Locked = 1`, when the call returns the word holds `Unlocked = 0` and a
wake of exactly one waiter is attempted if and only if either waiter
tracking is disabled or the tracked waiter counter is non-zero; when the
word already holds `Unlocked = 0`, `unlock` returns immediately with the
word still `Unlocked` and no wake attempted. -/
theorem c3_unlock_amended (ws : Option Nat) :
    unlock 1 ws = Option.some (0, shouldWake ws) ∧
    (shouldWake ws = true ↔
      (ws = Option.none ∨ ∃ n : Nat, ws = Option.some n ∧ n ≠ 0)) ∧
    unlock 0 ws = Option.some (0, false) :=
  ⟨unlock_one ws, shouldWake_iff ws, rfl⟩

/-- C4 counterexample: the claim asserts `RingBuffer::<T, N>::new()`
succeeds for every `N ≥ 3`, but the constructor also asserts
`N != usize::MAX`, so at `N = usize::MAX` (which is `≥ 3`) it panics. -/
theorem c4_counterexample :
    3 ≤ USIZE_MAX ∧ RingBuffer.new Nat USIZE_MAX = Option.none := by
  constructor
  · norm_num [USIZE_MAX]
  · simp [RingBuffer.new, USIZE_MAX]

/-- C4 amended: `RingBuffer::<T, N>::new()` succeeds for every `N` with
`3 ≤ N` and `N ≠ usize::MAX` — returning a buffer whose read and write
indices are both `0` and whose `N` cells are all `Vacant` — and panics for
every `N < 3` as well as for `N = usize::MAX`. -/
theorem c4_new_amended (α : Type) (N : Nat) :
    (3 ≤ N → N ≠ USIZE_MAX →
      RingBuffer.new α N =
        Option.some { buf := List.replicate N (CellValue.vacant), read_ptr := 0,
                      write_ptr := 0 }) ∧
    (N < 3 → RingBuffer.new α N = Option.none) ∧
    RingBuffer.new α USIZE_MAX = Option.none := by
  refine ⟨?_, ?_, ?_⟩
  · intro h3 hmax
    simp [RingBuffer.new, h3, hmax]
  · intro h
    have h3 : ¬ 3 ≤ N := by omega
    simp [RingBuffer.new, h3]
  · simp [RingBuffer.new, USIZE_MAX]

/-- Witness for `c4_new_amended` at `α = Nat`, `N = 3`. -/
theorem c4_new_amended_witness :
    RingBuffer.new Nat 3 =
      Option.some { buf := List.replicate 3 (CellValue.vacant), read_ptr := 0,
                    write_ptr := 0 } :=
  (c4_new_amended Nat 3).1 (by decide) (by simp [USIZE_MAX])

/-- C5: `Semaphore::signal` increments the counter by exactly one when it is
below `u32::MAX` and panics rather than wrapping when it equals `u32::MAX`;
after the increment a wake of one waiter is attempted if and only if waiter
tracking is disabled or the tracked waiter counter is non-zero. -/
theorem c5_signal_overflow (value : Nat) (ws : Option Nat) :
    (value < U32_MAX →
      Semaphore.signal value ws = Option.some (value + 1, shouldWake ws)) ∧
    (value = U32_MAX → Semaphore.signal value ws = Option.none) ∧
    (shouldWake ws = true ↔
      (ws = Option.none ∨ ∃ n : Nat, ws = Option.some n ∧ n ≠ 0)) := by
  refine ⟨?_, ?_, shouldWake_iff ws⟩
  · intro h
    have h1 : value + 1 ≤ U32_MAX := h
    cases hs : shouldWake ws <;> simp [Semaphore.signal, u32CheckedAdd, h1, hs]
  · intro h
    subst h
    have h1 : ¬ (U32_MAX + 1 ≤ U32_MAX) := by omega
    simp [Semaphore.signal, u32CheckedAdd, h1]

/-- Witness for `c5_signal_overflow` at `value = 5`, `ws = Some 0`. -/
theorem c5_signal_overflow_witness :
    Semaphore.signal 5 (Option.some 0) =
      Option.some (5 + 1, shouldWake (Option.some 0)) :=
  (c5_signal_overflow 5 (Option.some 0)).1 (by decide)

/-- C6: over every interleaving of `Semaphore::wait` and `Semaphore::signal`
calls (modelled by `SemReach`, the finite sequences of the successful atomic
updates those calls perform on the semaphore value), a value reachable from
an in-range initial value stays in the `u32` range (never wraps), and every
decrement step performed by `wait` starts from a positive value and lowers
it by exactly one. -/
theorem c6_wait_decrement (v0 v : Nat) (h0 : v0 ≤ U32_MAX) (hr : SemReach v0 v) :
    v ≤ U32_MAX ∧ ∀ w : Nat, SemStep SemLabel.dec v w → 0 < v ∧ w + 1 = v := by
  constructor
  · induction hr with
    | refl => exact h0
    | step b c l hab hbc ih =>
        cases hbc with
        | dec _ hb => omega
        | inc _ hb => omega
  · intro w hw
    cases hw with
    | dec _ hb => exact ⟨hb, by omega⟩

/-- Witness for `c6_wait_decrement`: value `1` reached from initial value
`2` by one successful `wait` decrement. -/
theorem c6_wait_decrement_witness :
    (1 : Nat) ≤ U32_MAX ∧
    ∀ w : Nat, SemStep SemLabel.dec 1 w → 0 < 1 ∧ w + 1 = 1 :=
  c6_wait_decrement 2 1 (by decide)
    (SemReach.step 2 2 1 SemLabel.dec (SemReach.refl 2) (SemStep.dec 2 (by decide)))

/-- C7: for every mutex operation (`lock`, `try_lock` — i.e. `lock` in
nonblocking mode — and `unlock`), a futex word holding a value outside the
valid encodings `{0, 1}` makes the operation panic, and a word holding `0`
or `1` (throughout the run, for `lock`) never triggers that
state-validation panic. -/
theorem c7_state_validation (w : Nat) (ws : Option Nat) (b : Bool)
    (r : Except ErrKind Unit) (tr : List (Nat × Except ErrKind Unit)) :
    (¬ (w = 0 ∨ w = 1) →
      locked w = Option.none ∧ unlock w ws = Option.none ∧
      (lockRun b ws ((w, r) :: tr)).1 = LockOutcome.panicState) ∧
    ((∀ p ∈ (w, r) :: tr, p.1 = 0 ∨ p.1 = 1) →
      (locked w).isSome = true ∧ (unlock w ws).isSome = true ∧
      (lockRun b ws ((w, r) :: tr)).1 ≠ LockOutcome.panicState) := by
  constructor
  · intro h
    push_neg at h
    obtain ⟨h0, h1⟩ := h
    have hl := locked_invalid w h0 h1
    refine ⟨hl, ?_, ?_⟩
    · simp [unlock, hl]
    · simp [lockRun, hl]
  · intro h
    have hw : w = 0 ∨ w = 1 := h (w, r) (by simp)
    refine ⟨?_, ?_, lockRun_valid_no_panic b ws ((w, r) :: tr) h⟩
    · rcases hw with h0 | h1
      · subst h0; rfl
      · subst h1; rfl
    · rcases hw with h0 | h1
      · subst h0; rfl
      · subst h1
        rw [unlock_one]
        rfl

/-- Witness for `c7_state_validation` at the invalid word `2`. -/
theorem c7_state_validation_witness :
    locked 2 = Option.none ∧ unlock 2 Option.none = Option.none ∧
    (lockRun true Option.none [(2, Except.ok ())]).1 = LockOutcome.panicState :=
  (c7_state_validation 2 Option.none true (Except.ok ()) []).1 (by decide)

/-- C8: when the cell at the read index holds an occupied value `v` and the
write index differs from the read index, one pass of `RingBuffer::read`
returns `v`, resets that cell to `Vacant`, and advances the read index by
exactly one modulo `N`. -/
theorem c8_read_success (α : Type) (rb : RingBuffer α) (v : α)
    (hc : rb.buf.get? rb.read_ptr = Option.some (CellValue.some v))
    (hw : rb.read_ptr ≠ rb.write_ptr) :
    RingBuffer.readOnce rb =
      ReadStep.done v
        { rb with buf := rb.buf.set rb.read_ptr (CellValue.vacant),
                  read_ptr := (rb.read_ptr + 1) % rb.buf.length } := by
  unfold RingBuffer.readOnce
  rw [hc]
  simp [hw, CellValue.take]

/-- Witness for `c8_read_success` on a three-cell buffer holding `7` at the
read index. -/
theorem c8_read_success_witness :
    RingBuffer.readOnce
        { buf := [CellValue.some 7, CellValue.vacant, CellValue.vacant],
          read_ptr := 0, write_ptr := 1 } =
      ReadStep.done 7
        { buf := [CellValue.vacant, CellValue.vacant, CellValue.vacant],
          read_ptr := 1, write_ptr := 1 } :=
  c8_read_success Nat
    { buf := [CellValue.some 7, CellValue.vacant, CellValue.vacant],
      read_ptr := 0, write_ptr := 1 } 7 rfl (by decide)

/-- C9: for every `u32` value `v`, `U31::new(v)` returns `Some` exactly when
`v ≤ i32::MAX` and `None` for every larger `v`; for every accepted `v`,
`get` returns `v` unchanged. -/
theorem c9_u31_bound (v : Nat) (hv : v ≤ U32_MAX) :
    ((U31.new v).isSome = true ↔ v ≤ I32_MAX) ∧
    (∀ u : U31, U31.new v = Option.some u → u.get = v) := by
  constructor
  · by_cases h : I32_MAX < v
    · simp [U31.new, h]
    · simp [U31.new, h]
      omega
  · intro u hu
    by_cases h : I32_MAX < v
    · simp [U31.new, h] at hu
    · simp [U31.new, h] at hu
      rw [← hu]
      rfl

/-- Witness for `c9_u31_bound` at `v = 5`. -/
theorem c9_u31_bound_witness :
    ((U31.new 5).isSome = true ↔ 5 ≤ I32_MAX) ∧
    (∀ u : U31, U31.new 5 = Option.some u → u.get = 5) :=
  c9_u31_bound 5 (by decide)

/-- C10: calling `unlock` on a futex word already holding `Unlocked = 0`
leaves the word unchanged and attempts no wake (the waiter counter is never
written by `unlock` at all), and `unlock` is idempotent: whatever a
successful `unlock` produced, a second `unlock` on the resulting word
leaves the word as it is and emits no further wake. -/
theorem c10_unlock_idempotent (ws : Option Nat) :
    unlock 0 ws = Option.some (0, false) ∧
    (∀ w w1 : Nat, ∀ k : Bool, unlock w ws = Option.some (w1, k) →
      unlock w1 ws = Option.some (w1, false)) := by
  refine ⟨rfl, ?_⟩
  intro w w1 k h
  have hw1 : w1 = 0 := by
    unfold unlock at h
    rcases hl : locked w with - | bl
    · rw [hl] at h
      simp at h
    · rw [hl] at h
      cases bl with
      | false =>
          have hw0 : w = 0 := (locked_false_iff w).mp hl
          simp at h
          omega
      | true =>
          cases hs : shouldWake ws <;> simp [hs, MutexState.toNat] at h <;> omega
  subst hw1
  rfl

/-- Witness for `c10_unlock_idempotent`: after `unlock` on the locked word
`1` with tracking disabled, a second `unlock` is a no-op. -/
theorem c10_unlock_idempotent_witness :
    unlock 0 Option.none = Option.some (0, false) :=
  (c10_unlock_idempotent Option.none).2 1 0 true rfl
